import Mathlib

/-!
Shallow embedding of the mcpbox gateway (TypeScript) for verification of its
natural-language specification.

Covered source:
* `src/auth/oauth-utils.ts` — `hashSecret`, `verifyClientSecret`,
  `isRedirectUriAllowed`, `parseBearerToken`;
* the OAuth server (`OAuthServer` class): `handleAuthorize` validation,
  `handleAuthorizationCodeGrant`, `handleClientCredentialsGrant`,
  `handleRefreshTokenGrant`, `validateToken`;
* `src/storage/memory.ts` — `MemoryStore`;
* `src/storage/sqlite.ts` — `SqliteStore.getRefreshToken`,
  `SqliteStore.rotateRefreshToken` (transaction semantics made explicit);
* `src/mcp/namespace.ts` — `namespaceName`, `stripNamespace`;
* `src/mcp/manager.ts` — the routing part of `McpManager.callTool`.

JavaScript `Map` objects are modelled as association lists (`jsMapGet`,
`jsMapSet`, `jsMapDelete`); JS string falsiness (`!s` true for `null`,
`undefined` and `""`) is modelled by `jsFalsy` on `Option String`; the
SHA-256 primitives from `node:crypto` are abstract function parameters
(`sha256hex` for `.digest("hex")`, `sha256base64url` for
`.digest("base64url")`).  Times are `Nat` milliseconds (`Date.now()`).
-/

namespace MCPBox

/-- Embeds `Map.get`: first binding of the key, if any (JS maps have unique keys). -/
def jsMapGet {κ α : Type} [DecidableEq κ] (m : List (κ × α)) (k : κ) : Option α :=
  match m with
  | [] => none
  | (k₁, v₁) :: rest => if k₁ = k then some v₁ else jsMapGet rest k

/-- Embeds `Map.set`: replace the binding in place if the key is present, else append. -/
def jsMapSet {κ α : Type} [DecidableEq κ] (m : List (κ × α)) (k : κ) (v : α) :
    List (κ × α) :=
  match m with
  | [] => [(k, v)]
  | (k₁, v₁) :: rest => if k₁ = k then (k, v) :: rest else (k₁, v₁) :: jsMapSet rest k v

/-- Embeds `Map.delete`: remove the binding of the key.  A JS map holds at most one
binding per key, so removing every pair with that key coincides with it. -/
def jsMapDelete {κ α : Type} [DecidableEq κ] (m : List (κ × α)) (k : κ) :
    List (κ × α) :=
  match m with
  | [] => []
  | (k₁, v₁) :: rest => if k₁ = k then jsMapDelete rest k else (k₁, v₁) :: jsMapDelete rest k

theorem jsMapGet_set_self {κ α : Type} [DecidableEq κ] (m : List (κ × α)) (k : κ) (v : α) :
    jsMapGet (jsMapSet m k v) k = some v := by
  induction m with
  | nil => simp [jsMapGet, jsMapSet]
  | cons p rest ih =>
    obtain ⟨k₁, v₁⟩ := p
    by_cases h : k₁ = k
    · simp [jsMapGet, jsMapSet, h]
    · simp [jsMapGet, jsMapSet, h, ih]

theorem jsMapGet_set_ne {κ α : Type} [DecidableEq κ] (m : List (κ × α)) (k k₂ : κ) (v : α)
    (h : k₂ ≠ k) : jsMapGet (jsMapSet m k v) k₂ = jsMapGet m k₂ := by
  induction m with
  | nil => simp [jsMapGet, jsMapSet, Ne.symm h]
  | cons p rest ih =>
    obtain ⟨k₁, v₁⟩ := p
    by_cases hk : k₁ = k
    · subst hk
      simp [jsMapGet, jsMapSet, Ne.symm h]
    · by_cases hk₂ : k₁ = k₂
      · simp [jsMapGet, jsMapSet, hk, hk₂, h]
      · simp [jsMapGet, jsMapSet, hk, hk₂, ih]

theorem jsMapGet_delete_self {κ α : Type} [DecidableEq κ] (m : List (κ × α)) (k : κ) :
    jsMapGet (jsMapDelete m k) k = none := by
  induction m with
  | nil => simp [jsMapGet, jsMapDelete]
  | cons p rest ih =>
    obtain ⟨k₁, v₁⟩ := p
    by_cases h : k₁ = k
    · simp [jsMapDelete, h, ih]
    · simp [jsMapDelete, jsMapGet, h, ih]

theorem jsMapGet_delete_ne {κ α : Type} [DecidableEq κ] (m : List (κ × α)) (k k₂ : κ)
    (h : k₂ ≠ k) : jsMapGet (jsMapDelete m k) k₂ = jsMapGet m k₂ := by
  induction m with
  | nil => simp [jsMapGet, jsMapDelete]
  | cons p rest ih =>
    obtain ⟨k₁, v₁⟩ := p
    by_cases hk : k₁ = k
    · subst hk
      simp [jsMapDelete, jsMapGet, Ne.symm h, ih]
    · by_cases hk₂ : k₁ = k₂
      · simp [jsMapDelete, jsMapGet, hk, hk₂, h]
      · simp [jsMapDelete, jsMapGet, hk, hk₂, ih]

/-- JS falsiness of a `string | null | undefined` value: `null`, `undefined`
and the empty string are falsy. -/
def jsFalsy : Option String → Bool
  | none => true
  | some s => s = ""

/-- JS truthiness of a `string | null | undefined` value. -/
def jsTruthy (o : Option String) : Bool := ! jsFalsy o

/-- Embeds `StoredClient` from `src/storage/types.ts` (field names normalised to the
camelCase spelling used by the OAuth server; `clientSecret` is the SHA-256 hex
digest of the secret when present). -/
structure StoredClient where
  clientId : String
  clientSecret : Option String
  clientName : Option String
  redirectUris : Option (List String)
  grantTypes : List String
  responseTypes : List String
  tokenEndpointAuthMethod : String
  createdAt : Nat
  isDynamic : Bool
deriving DecidableEq, Repr

/-- Embeds `StoredAccessToken` / `StoredRefreshToken` from `src/storage/types.ts`:
the two interfaces have identical fields, so one structure embeds both.
`token` holds the SHA-256 hex digest of the plaintext token. -/
structure StoredToken where
  token : String
  clientId : String
  scope : Option String
  expiresAt : Nat
  userId : String
deriving DecidableEq, Repr

/-- The three maps of `MemoryStore` (`src/storage/memory.ts`), keyed by
client id resp. token hash. -/
structure MemoryStore where
  clients : List (String × StoredClient)
  accessTokens : List (String × StoredToken)
  refreshTokens : List (String × StoredToken)
deriving DecidableEq, Repr

/-- Embeds `MemoryStore.getClient`: plain map lookup, no expiry. -/
def MemoryStore.getClient (s : MemoryStore) (clientId : String) : Option StoredClient :=
  jsMapGet s.clients clientId

/-- Embeds `MemoryStore.saveClient`. -/
def MemoryStore.saveClient (s : MemoryStore) (client : StoredClient) : MemoryStore :=
  { s with clients := jsMapSet s.clients client.clientId client }

/-- Embeds `MemoryStore.getAccessToken`: lazy expiry — an expired entry is deleted
and absence returned.  `now` stands for `Date.now()`. -/
def MemoryStore.getAccessToken (s : MemoryStore) (token : String) (now : Nat) :
    Option StoredToken × MemoryStore :=
  match jsMapGet s.accessTokens token with
  | none => (none, s)
  | some stored =>
    if stored.expiresAt < now then
      (none, { s with accessTokens := jsMapDelete s.accessTokens token })
    else
      (some stored, s)

/-- Embeds `MemoryStore.saveAccessToken`. -/
def MemoryStore.saveAccessToken (s : MemoryStore) (token : StoredToken) : MemoryStore :=
  { s with accessTokens := jsMapSet s.accessTokens token.token token }

/-- Embeds `MemoryStore.getRefreshToken`: lazy expiry, as for access tokens. -/
def MemoryStore.getRefreshToken (s : MemoryStore) (token : String) (now : Nat) :
    Option StoredToken × MemoryStore :=
  match jsMapGet s.refreshTokens token with
  | none => (none, s)
  | some stored =>
    if stored.expiresAt < now then
      (none, { s with refreshTokens := jsMapDelete s.refreshTokens token })
    else
      (some stored, s)

/-- Embeds `MemoryStore.saveRefreshToken`. -/
def MemoryStore.saveRefreshToken (s : MemoryStore) (token : StoredToken) : MemoryStore :=
  { s with refreshTokens := jsMapSet s.refreshTokens token.token token }

/-- Embeds `MemoryStore.deleteRefreshToken`. -/
def MemoryStore.deleteRefreshToken (s : MemoryStore) (token : String) : MemoryStore :=
  { s with refreshTokens := jsMapDelete s.refreshTokens token }

/-- Embeds `MemoryStore.rotateRefreshToken`: delete the old hash, insert the new
binding — one synchronous step, hence atomic from callers. -/
def MemoryStore.rotateRefreshToken (s : MemoryStore) (oldTokenHash : String)
    (newToken : StoredToken) : MemoryStore :=
  { s with refreshTokens :=
      jsMapSet (jsMapDelete s.refreshTokens oldTokenHash) newToken.token newToken }

/-- Modelled from the spec: `safeCompare` from `src/auth/crypto.ts` is not
under `src/`; the spec (§2 "Crypto primitives") describes it as the
constant-time string comparison, i.e. extensionally string equality. -/
def safeCompare (a b : String) : Bool := a = b

/-- Embeds `hashSecret` from `src/auth/oauth-utils.ts`; `sha256hex` stands for
`createHash("sha256").update(secret).digest("hex")` from `node:crypto`. -/
def hashSecret (sha256hex : String → String) (secret : String) : String :=
  sha256hex secret

/-- Embeds `verifyClientSecret` from `src/auth/oauth-utils.ts`. -/
def verifyClientSecret (sha256hex : String → String) (input storedHash : String) : Bool :=
  safeCompare (hashSecret sha256hex input) storedHash

/-- Embeds `isRedirectUriAllowed` from `src/auth/oauth-utils.ts`: exact string
membership in the client's registered list (`?? false` when absent). -/
def isRedirectUriAllowed (redirectUri : String) (client : StoredClient) : Bool :=
  match client.redirectUris with
  | some uris => uris.contains redirectUri
  | none => false

/-- The character class `\s` of JavaScript regular expressions. -/
def isJsWhitespace (c : Char) : Bool :=
  c = ' ' || c = '\t' || c = '\n' || c = '\r' ||
  c.toNat = 11 || c.toNat = 12 ||
  c.toNat = 0xa0 || c.toNat = 0x1680 ||
  (0x2000 ≤ c.toNat && c.toNat ≤ 0x200a) ||
  c.toNat = 0x2028 || c.toNat = 0x2029 ||
  c.toNat = 0x202f || c.toNat = 0x205f || c.toNat = 0x3000 || c.toNat = 0xfeff

/-- The line terminators that `.` does not match in a JavaScript regular
expression without the `s` flag. -/
def isJsLineTerminator (c : Char) : Bool :=
  c = '\n' || c = '\r' || c.toNat = 0x2028 || c.toNat = 0x2029

/-- The part of `/^Bearer\s+(.+)$/i` after the literal `Bearer`: `\s+` is
greedy, so the capture is the input minus its maximal whitespace prefix —
unless that leaves nothing, in which case `\s+` backtracks by one character
(which `(.+)` then captures, provided it is not a line terminator and at
least one whitespace character remains for `\s+`).  If the remainder after
the whitespace prefix contains a line terminator, no amount of backtracking
lets `(.+)$` span it, so the match fails. -/
def bearerMatchTail (rest : List Char) : Option (List Char) :=
  if rest.takeWhile isJsWhitespace = ([] : List Char) then none
  else
    let t := rest.dropWhile isJsWhitespace
    if t ≠ ([] : List Char) then
      if t.all (fun c => ! isJsLineTerminator c) then some t else none
    else
      match rest with
      | _ :: _ :: _ =>
        match rest.getLast? with
        | some c => if isJsLineTerminator c then none else some [c]
        | none => none
      | _ => none

/-- Full match of `/^Bearer\s+(.+)$/i` on a list of characters: the six
leading characters must spell `Bearer` case-insensitively, then
`bearerMatchTail` handles `\s+(.+)$`. -/
def bearerRegexMatch (cs : List Char) : Option (List Char) :=
  match cs with
  | c₀ :: c₁ :: c₂ :: c₃ :: c₄ :: c₅ :: rest =>
    if c₀.toLower = 'b' && c₁.toLower = 'e' && c₂.toLower = 'a' &&
       c₃.toLower = 'r' && c₄.toLower = 'e' && c₅.toLower = 'r' then
      bearerMatchTail rest
    else none
  | _ => none

/-- Embeds `parseBearerToken` from `src/auth/oauth-utils.ts`: `null` when the header
is missing, else the capture of `authHeader.match(/^Bearer\s+(.+)$/i)`. -/
def parseBearerToken (authHeader : Option String) : Option String :=
  match authHeader with
  | none => none
  | some s => (bearerRegexMatch s.toList).map fun cs => String.mk cs

/-- Result shape of `OAuthServer.validateToken`. -/
structure ValidateResult where
  valid : Bool
  userId : Option String
  error : Option String
deriving DecidableEq, Repr

/-- Embeds `OAuthServer.validateToken`: parse the bearer, hash it, look it up in the
access-token store (which lazily deletes expired entries), and report the
stored `userId` on success. -/
def validateToken (sha256hex : String → String) (store : MemoryStore) (now : Nat)
    (authHeader : Option String) : ValidateResult × MemoryStore :=
  match parseBearerToken authHeader with
  | none =>
    ({ valid := false, userId := none,
       error := some (if jsTruthy authHeader then "Invalid authorization header format"
                      else "No authorization header") }, store)
  | some token =>
    match store.getAccessToken (hashSecret sha256hex token) now with
    | (none, store₁) => ({ valid := false, userId := none, error := some "Invalid token" }, store₁)
    | (some accessToken, store₁) =>
      ({ valid := true, userId := some accessToken.userId, error := none }, store₁)

/-- The transient `AuthorizationCode` record of the OAuth server. -/
structure AuthorizationCode where
  code : String
  clientId : String
  redirectUri : String
  codeChallenge : Option String
  codeChallengeMethod : Option String
  scope : Option String
  expiresAt : Nat
  userId : String
deriving DecidableEq, Repr

/-- The state the token-endpoint handlers read and write: the in-memory
authorization-code map of `OAuthServer` plus the state store. -/
structure OAuthServerState where
  authorizationCodes : List (String × AuthorizationCode)
  store : MemoryStore
deriving DecidableEq, Repr

/-- JSON body of a successful token response.  A missing `refresh_token`
field (client-credentials grant) is `none`. -/
structure TokenSuccessBody where
  access_token : String
  refresh_token : Option String
  token_type : String
  expires_in : Nat
  scope : Option String
deriving DecidableEq, Repr

/-- JSON body of an OAuth error response. -/
structure OAuthErrorBody where
  error : String
  error_description : Option String
deriving DecidableEq, Repr

/-- Outcome of a token-endpoint handler: `success` is HTTP 200 (with
`Cache-Control: no-store`); `failure` carries the HTTP status (400 or 401). -/
inductive TokenResponse
  | success (status : Nat) (body : TokenSuccessBody)
  | failure (status : Nat) (body : OAuthErrorBody)
deriving DecidableEq, Repr

/-- The failing condition of the client-secret gate shared by the
authorization-code and refresh-token grants:
`client.clientSecret && (!clientSecret || !verifyClientSecret(...))`. -/
def clientSecretCheckFails (sha256hex : String → String) (client : StoredClient)
    (clientSecret : Option String) : Bool :=
  jsTruthy client.clientSecret &&
    (jsFalsy clientSecret ||
     ! verifyClientSecret sha256hex (clientSecret.getD "") (client.clientSecret.getD ""))

/-- Embeds `OAuthServer.handleAuthorizationCodeGrant`.  `now` is `Date.now()`;
`newAccessToken` and `newRefreshToken` are the two values produced by
`randomBytes(32).toString("hex")`. -/
def handleAuthorizationCodeGrant
    (sha256hex sha256base64url : String → String)
    (st : OAuthServerState) (now : Nat) (newAccessToken newRefreshToken : String)
    (clientId clientSecret code redirectUri codeVerifier : Option String) :
    TokenResponse × OAuthServerState :=
  if jsFalsy code || jsFalsy clientId then
    (.failure 400 ⟨"invalid_request", some "Missing code or client_id"⟩, st)
  else
    let cd := code.getD ""
    let cid := clientId.getD ""
    match st.store.getClient cid with
    | none => (.failure 400 ⟨"invalid_client", some "Unknown client"⟩, st)
    | some client =>
      if clientSecretCheckFails sha256hex client clientSecret then
        (.failure 401 ⟨"invalid_client", some "Invalid client credentials"⟩, st)
      else
        match jsMapGet st.authorizationCodes cd with
        | none => (.failure 400 ⟨"invalid_grant", some "Invalid authorization code"⟩, st)
        | some authCode =>
          if authCode.expiresAt < now then
            (.failure 400 ⟨"invalid_grant", some "Authorization code expired"⟩,
             { st with authorizationCodes := jsMapDelete st.authorizationCodes cd })
          else if authCode.clientId ≠ cid then
            (.failure 400 ⟨"invalid_grant", some "Client ID mismatch"⟩, st)
          else if jsTruthy redirectUri && authCode.redirectUri ≠ redirectUri.getD "" then
            (.failure 400 ⟨"invalid_grant", some "Redirect URI mismatch"⟩, st)
          else if jsFalsy authCode.codeChallenge then
            (.failure 400 ⟨"invalid_grant", some "Code challenge missing from authorization code"⟩, st)
          else if jsFalsy codeVerifier then
            (.failure 400 ⟨"invalid_grant", some "Code verifier required"⟩, st)
          else if authCode.codeChallenge ≠ some (sha256base64url (codeVerifier.getD "")) then
            (.failure 400 ⟨"invalid_grant", some "Invalid code verifier"⟩, st)
          else
            let st₁ := { st with authorizationCodes := jsMapDelete st.authorizationCodes cd }
            let store₁ := st₁.store.saveAccessToken
              { token := hashSecret sha256hex newAccessToken, clientId := cid,
                scope := authCode.scope, expiresAt := now + 3600 * 1000,
                userId := authCode.userId }
            let store₂ := store₁.saveRefreshToken
              { token := hashSecret sha256hex newRefreshToken, clientId := cid,
                scope := authCode.scope, expiresAt := now + 90 * 24 * 60 * 60 * 1000,
                userId := authCode.userId }
            (.success 200
               { access_token := newAccessToken, refresh_token := some newRefreshToken,
                 token_type := "Bearer", expires_in := 3600, scope := authCode.scope },
             { st₁ with store := store₂ })

/-- Embeds `OAuthServer.handleClientCredentialsGrant`. -/
def handleClientCredentialsGrant
    (sha256hex : String → String)
    (st : OAuthServerState) (now : Nat) (newAccessToken : String)
    (clientId clientSecret : Option String) : TokenResponse × OAuthServerState :=
  if jsFalsy clientId || jsFalsy clientSecret then
    (.failure 400 ⟨"invalid_request", some "client_id and client_secret required"⟩, st)
  else
    let cid := clientId.getD ""
    match st.store.getClient cid with
    | none => (.failure 401 ⟨"invalid_client", some "Unknown client"⟩, st)
    | some client =>
      if ! client.grantTypes.contains "client_credentials" then
        (.failure 400 ⟨"unauthorized_client", some "Client not authorized for client_credentials grant"⟩, st)
      else if jsFalsy client.clientSecret ||
              ! verifyClientSecret sha256hex (clientSecret.getD "") (client.clientSecret.getD "") then
        (.failure 401 ⟨"invalid_client", some "Invalid client credentials"⟩, st)
      else
        let store₁ := st.store.saveAccessToken
          { token := hashSecret sha256hex newAccessToken, clientId := cid,
            scope := some "mcp:tools", expiresAt := now + 3600 * 1000,
            userId := "client:" ++ cid }
        (.success 200
           { access_token := newAccessToken, refresh_token := none,
             token_type := "Bearer", expires_in := 3600, scope := some "mcp:tools" },
         { st with store := store₁ })

/-- Embeds `OAuthServer.handleRefreshTokenGrant`.  The refresh-token lookup goes
through `MemoryStore.getRefreshToken` and therefore may itself delete an
expired entry; the secret gate uses optional chaining
(`client?.clientSecret && ...`), so an absent client skips it. -/
def handleRefreshTokenGrant
    (sha256hex : String → String)
    (st : OAuthServerState) (now : Nat) (newAccessToken newRefreshToken : String)
    (clientId clientSecret refreshToken : Option String) :
    TokenResponse × OAuthServerState :=
  if jsFalsy refreshToken || jsFalsy clientId then
    (.failure 400 ⟨"invalid_request", some "refresh_token and client_id required"⟩, st)
  else
    let cid := clientId.getD ""
    let refreshTokenHash := hashSecret sha256hex (refreshToken.getD "")
    match st.store.getRefreshToken refreshTokenHash now with
    | (none, store₁) =>
      (.failure 400 ⟨"invalid_grant", some "Invalid refresh token"⟩, { st with store := store₁ })
    | (some stored, store₁) =>
      if stored.clientId ≠ cid then
        (.failure 400 ⟨"invalid_grant", some "Client ID mismatch"⟩, { st with store := store₁ })
      else
        let secretFails :=
          match store₁.getClient cid with
          | none => false
          | some client => clientSecretCheckFails sha256hex client clientSecret
        if secretFails then
          (.failure 401 ⟨"invalid_client", some "Invalid client credentials"⟩,
           { st with store := store₁ })
        else
          let store₂ := store₁.rotateRefreshToken refreshTokenHash
            { token := hashSecret sha256hex newRefreshToken, clientId := cid,
              scope := stored.scope, expiresAt := now + 90 * 24 * 60 * 60 * 1000,
              userId := stored.userId }
          let store₃ := store₂.saveAccessToken
            { token := hashSecret sha256hex newAccessToken, clientId := cid,
              scope := stored.scope, expiresAt := now + 3600 * 1000,
              userId := stored.userId }
          (.success 200
             { access_token := newAccessToken, refresh_token := some newRefreshToken,
               token_type := "Bearer", expires_in := 3600, scope := stored.scope },
           { st with store := store₃ })

/-- Outcome of the validation prefix of `OAuthServer.handleAuthorize`
(lines up to the redirect-URI check).  `proceed` abstracts the rest of the
handler — login form, provider redirect, code issuance — which only runs
once every validation step has passed. -/
inductive AuthorizeValidation
  | failure (status : Nat) (body : OAuthErrorBody)
  | proceed
deriving DecidableEq, Repr

/-- The validation prefix of `OAuthServer.handleAuthorize`, shared by GET and
POST: provider availability, required parameters, `S256`, client existence,
registered redirect URI — in source order. -/
def handleAuthorizeValidation (providerCount : Nat) (store : MemoryStore)
    (clientId redirectUri responseType codeChallenge codeChallengeMethod : Option String) :
    AuthorizeValidation :=
  if providerCount = 0 then
    .failure 400 ⟨"invalid_request",
      some "Authorization Code flow not available. Use Client Credentials grant or configure identity providers."⟩
  else if jsFalsy clientId || jsFalsy redirectUri ||
          responseType ≠ some "code" || jsFalsy codeChallenge then
    .failure 400 ⟨"invalid_request", some "Missing required parameters"⟩
  else if codeChallengeMethod ≠ some "S256" then
    .failure 400 ⟨"invalid_request", some "Only S256 code challenge method is supported"⟩
  else
    match store.getClient (clientId.getD "") with
    | none => .failure 400 ⟨"invalid_client", some "Unknown client_id"⟩
    | some client =>
      if ! isRedirectUriAllowed (redirectUri.getD "") client then
        .failure 400 ⟨"invalid_request", some "Invalid redirect_uri"⟩
      else
        .proceed

/-- The separator of `src/mcp/namespace.ts`.  JS strings are modelled as
their sequences of characters (`List Char`). -/
def SEPARATOR : List Char := ['_', '_']

/-- Embeds `namespaceName` from `src/mcp/namespace.ts`:
`` `${serverName}${SEPARATOR}${name}` ``. -/
def namespaceName (serverName name : List Char) : List Char :=
  serverName ++ SEPARATOR ++ name

/-- Embeds `stripNamespace` from `src/mcp/namespace.ts`:
`namespacedName.substring(serverName.length + SEPARATOR.length)`. -/
def stripNamespace (serverName namespacedName : List Char) : List Char :=
  namespacedName.drop (serverName.length + SEPARATOR.length)

/-- What a `tools/call` dispatch produces, seen from the HTTP client:
`rpcError` is the JSON-RPC error object that the `tools/call` branch of
`handleRequest` builds from the exception thrown by `McpManager.callTool`
(`ErrorCode.InternalError = -32603`); `downstream` records that the request
was routed to the named child with the de-namespaced tool name — i.e. that a
downstream call was made. -/
inductive CallToolOutcome
  | rpcError (code : Int) (message : List Char)
  | downstream (mcpName : List Char) (originalName : List Char)
deriving DecidableEq, Repr

/-- The routing part of `McpManager.callTool` composed with the error mapping
of `handleRequest` (`src/mcp/manager.ts` and the gateway's `tools/call`
branch): look the namespaced name up in `toolToMcp`; unknown name throws
`Unknown tool: <name>`; a dangling index entry throws `MCP not found: <mcp>`;
otherwise the call goes downstream with the namespace stripped (unless
namespacing is disabled). -/
def callToolRoute (toolToMcp : List (List Char × List Char)) (mcpNames : List (List Char))
    (useNamespacing : Bool) (toolName : List Char) : CallToolOutcome :=
  match jsMapGet toolToMcp toolName with
  | none => .rpcError (-32603) ("Unknown tool: ".toList ++ toolName)
  | some mcpName =>
    if mcpName ∈ mcpNames then
      .downstream mcpName (if useNamespacing then stripNamespace mcpName toolName else toolName)
    else
      .rpcError (-32603) ("MCP not found: ".toList ++ mcpName)

/-- A value serialised into the `value` column of the SQLite `kv` table
(`JSON.stringify` of one of the three stored entities). -/
inductive KvValue
  | clientV (c : StoredClient)
  | accessTokenV (t : StoredToken)
  | refreshTokenV (t : StoredToken)
deriving DecidableEq, Repr

/-- A row of `kv(key TEXT PRIMARY KEY, value TEXT NOT NULL, expires_at INTEGER)`. -/
structure KvRow where
  key : String
  value : KvValue
  expiresAt : Option Nat
deriving DecidableEq, Repr

/-- Executes `DELETE FROM kv WHERE key = ?` (the primary key makes the row unique). -/
def kvDelete (kv : List KvRow) (k : String) : List KvRow :=
  kv.filter fun r => decide (r.key ≠ k)

/-- Executes `INSERT OR REPLACE INTO kv (key, value, expires_at) VALUES (?, ?, ?)`. -/
def kvInsertOrReplace (kv : List KvRow) (row : KvRow) : List KvRow :=
  kvDelete kv row.key ++ [row]

/-- Executes `SELECT value FROM kv WHERE key = ? AND (expires_at IS NULL OR expires_at > ?)`. -/
def kvSelectLive (kv : List KvRow) (k : String) (now : Nat) : Option KvRow :=
  kv.find? fun r =>
    decide (r.key = k) &&
      (match r.expiresAt with
       | none => true
       | some e => decide (now < e))

/-- Embeds `SqliteStore.getRefreshToken`: live-row lookup, then `JSON.parse` of the
value, which yields a refresh-token record exactly when one was stored
under that key. -/
def sqliteGetRefreshToken (kv : List KvRow) (token : String) (now : Nat) :
    Option StoredToken :=
  match kvSelectLive kv token now with
  | some row =>
    match row.value with
    | .refreshTokenV t => some t
    | _ => none
  | none => none

/-- Result of `SqliteStore.rotateRefreshToken` under fault injection:
whether the call threw, and the table after it returned. -/
structure SqliteRotateResult where
  threw : Bool
  kv : List KvRow
deriving DecidableEq, Repr

/-- Embeds `SqliteStore.rotateRefreshToken` with an injected fault on the insert:
`BEGIN`; `DELETE` the old hash; `INSERT OR REPLACE` the new token; `COMMIT`.
If the insert throws, the `catch` issues `ROLLBACK` — restoring the
pre-transaction table — and rethrows. -/
def sqliteRotateRefreshToken (kv : List KvRow) (oldTokenHash : String)
    (newToken : StoredToken) (insertFails : Bool) : SqliteRotateResult :=
  let afterDelete := kvDelete kv oldTokenHash
  if insertFails then
    { threw := true, kv := kv }
  else
    { threw := false,
      kv := kvInsertOrReplace afterDelete
        ⟨newToken.token, .refreshTokenV newToken, some newToken.expiresAt⟩ }

/-- The access-token entry minted by a successful authorization-code grant. -/
def mintedAccessEntry (sha256hex : String → String) (newAccessToken cid : String)
    (authCode : AuthorizationCode) (now : Nat) : StoredToken :=
  { token := hashSecret sha256hex newAccessToken, clientId := cid,
    scope := authCode.scope, expiresAt := now + 3600 * 1000, userId := authCode.userId }

/-- The refresh-token entry minted by a successful authorization-code grant. -/
def mintedRefreshEntry (sha256hex : String → String) (newRefreshToken cid : String)
    (authCode : AuthorizationCode) (now : Nat) : StoredToken :=
  { token := hashSecret sha256hex newRefreshToken, clientId := cid,
    scope := authCode.scope, expiresAt := now + 90 * 24 * 60 * 60 * 1000,
    userId := authCode.userId }

/-- A stand-in for the SHA-256 hex digest in concrete witness runs:
injective and fixed-point free, as a cryptographic hash is in practice. -/
def demoSha256Hex (s : String) : String := "H" ++ s

/-- A stand-in for `BASE64URL(SHA-256(·))` in concrete witness runs. -/
def demoSha256B64 (s : String) : String := "C" ++ s

/-- A pre-registered public client used by the concrete witness runs. -/
def demoClient : StoredClient :=
  { clientId := "web-client", clientSecret := none, clientName := none,
    redirectUris := some ["http://localhost:3000/cb"],
    grantTypes := ["authorization_code"], responseTypes := ["code"],
    tokenEndpointAuthMethod := "none", createdAt := 0, isDynamic := false }

/-- A stored authorization code for `demoClient`, challenge
`demoSha256B64 "verifier"`. -/
def demoAuthCode : AuthorizationCode :=
  { code := "code-1", clientId := "web-client",
    redirectUri := "http://localhost:3000/cb", codeChallenge := some "Cverifier",
    codeChallengeMethod := some "S256", scope := some "mcp:tools",
    expiresAt := 1000, userId := "local:alice" }

/-- Server state holding `demoAuthCode` and `demoClient`. -/
def demoState : OAuthServerState :=
  { authorizationCodes := [("code-1", demoAuthCode)],
    store := { clients := [("web-client", demoClient)], accessTokens := [],
               refreshTokens := [] } }

/-- A confidential client for the client-credentials witness run; the stored
secret is `demoSha256Hex "m2m-secret"`. -/
def demoCCClient : StoredClient :=
  { clientId := "m2m-client", clientSecret := some "Hm2m-secret", clientName := none,
    redirectUris := none, grantTypes := ["client_credentials"], responseTypes := [],
    tokenEndpointAuthMethod := "client_secret_post", createdAt := 0, isDynamic := false }

/-- Server state for the client-credentials witness run. -/
def demoCCState : OAuthServerState :=
  { authorizationCodes := [],
    store := { clients := [("m2m-client", demoCCClient)], accessTokens := [],
               refreshTokens := [] } }

/-- Server state for the refresh-token witness runs: one live refresh token
stored under `demoSha256Hex "refresh-1"`. -/
def demoRefreshState : OAuthServerState :=
  { authorizationCodes := [],
    store := { clients := [("web-client", demoClient)], accessTokens := [],
               refreshTokens :=
                 [("Hrefresh-1",
                   { token := "Hrefresh-1", clientId := "web-client",
                     scope := some "mcp:tools", expiresAt := 9999,
                     userId := "local:alice" })] } }

theorem kvDelete_key_ne (kv : List KvRow) (k : String) :
    ∀ r ∈ kvDelete kv k, r.key ≠ k := by
  intro r hr
  have := (List.mem_filter.mp hr).2
  exact of_decide_eq_true this

theorem kvDelete_sublist (kv : List KvRow) (k : String) :
    ∀ r ∈ kvDelete kv k, r ∈ kv := by
  intro r hr
  exact (List.mem_filter.mp hr).1

theorem kvSelectLive_of_all_ne (kv : List KvRow) (k : String) (now : Nat)
    (h : ∀ r ∈ kv, r.key ≠ k) : kvSelectLive kv k now = none := by
  apply List.find?_eq_none.mpr
  intro r hr
  simp [h r hr]

theorem find?_append_of_none {α : Type} (p : α → Bool) (l₁ l₂ : List α)
    (h : l₁.find? p = none) : (l₁ ++ l₂).find? p = l₂.find? p := by
  induction l₁ with
  | nil => simp
  | cons a l ih =>
    rw [List.find?_cons] at h
    rcases hp : p a with _ | _
    · rw [List.cons_append, List.find?_cons, hp]
      exact ih (by rwa [hp] at h)
    · rw [hp] at h
      exact absurd h (by simp)

/-- Claim C8: for every non-empty server name and every tool name — including
names that themselves contain `__` — stripping the namespace from the encoded
name recovers the original: `stripNamespace server (namespaceName server name)
= name`, since `namespaceName` prepends `server ++ "__"` and `stripNamespace`
drops exactly `server.length + 2` characters. -/
theorem claim_C8 (server name : List Char) (h : server ≠ []) :
    stripNamespace server (namespaceName server name) = name := by
  show (server ++ SEPARATOR ++ name).drop (server.length + SEPARATOR.length) = name
  have hl : server.length + SEPARATOR.length = (server ++ SEPARATOR).length := by
    simp
  rw [hl, List.drop_left]

/-- Witness for C8 at `server = "srv"`, `name = "a__b"` (a name containing
the separator). -/
theorem claim_C8_witness :
    "srv".toList ≠ [] ∧
      stripNamespace "srv".toList (namespaceName "srv".toList "a__b".toList) = "a__b".toList :=
  ⟨by decide, claim_C8 "srv".toList "a__b".toList (by decide)⟩

/-- Claim C9: a `tools/call` whose namespaced tool name is not a key of the
tool routing index produces the JSON-RPC error `-32603` with message
`Unknown tool: <name>`; the outcome is `rpcError`, not `downstream`, so no
downstream child call is made. -/
theorem claim_C9 (toolToMcp : List (List Char × List Char)) (mcpNames : List (List Char))
    (useNamespacing : Bool) (toolName : List Char)
    (h : jsMapGet toolToMcp toolName = none) :
    callToolRoute toolToMcp mcpNames useNamespacing toolName =
      .rpcError (-32603) ("Unknown tool: ".toList ++ toolName) := by
  unfold callToolRoute
  rw [h]

/-- Witness for C9: calling `ghost__doNothing` against an empty routing index
yields exactly the message `Unknown tool: ghost__doNothing`. -/
theorem claim_C9_witness :
    jsMapGet ([] : List (List Char × List Char)) "ghost__doNothing".toList = none ∧
      callToolRoute [] [] true "ghost__doNothing".toList =
        .rpcError (-32603) "Unknown tool: ghost__doNothing".toList := by
  refine ⟨rfl, ?_⟩
  rw [claim_C9 [] [] true "ghost__doNothing".toList rfl]
  decide

/-- Counterexample to claim C3: on the SQL store, when the insertion of the
new token fails, `rotateRefreshToken` rolls the transaction back, so
`getRefreshToken(oldHash)` still returns the old entry — not absence as the
claim states.  Concrete input: a table holding one live refresh token under
key `"oldHash"`, a failing insert of `"newHash"`. -/
theorem claim_C3_counterexample :
    sqliteGetRefreshToken
      (sqliteRotateRefreshToken
        [⟨"oldHash", .refreshTokenV ⟨"oldHash", "client-1", none, 1000, "user-1"⟩, some 1000⟩]
        "oldHash"
        ⟨"newHash", "client-1", none, 2000, "user-1"⟩
        true).kv
      "oldHash" 0 ≠ none := by
  decide

/-- Claim C3 as amended: `SqliteStore.rotateRefreshToken` runs delete and
insert in one transaction, so the pair is atomic — when the insert fails the
transaction is rolled back and the table (hence the old hash's entry) is
unchanged; when it succeeds the old hash is unreachable and the new token is
reachable under its hash. -/
theorem claim_C3_amended (kv : List KvRow) (oldTokenHash : String)
    (newToken : StoredToken) (now : Nat) :
    ((sqliteRotateRefreshToken kv oldTokenHash newToken true).threw = true ∧
      (sqliteRotateRefreshToken kv oldTokenHash newToken true).kv = kv) ∧
    ((sqliteRotateRefreshToken kv oldTokenHash newToken false).threw = false ∧
      (newToken.token ≠ oldTokenHash →
        sqliteGetRefreshToken
          (sqliteRotateRefreshToken kv oldTokenHash newToken false).kv oldTokenHash now = none) ∧
      (now < newToken.expiresAt →
        sqliteGetRefreshToken
          (sqliteRotateRefreshToken kv oldTokenHash newToken false).kv newToken.token now =
          some newToken)) := by
  refine ⟨⟨rfl, rfl⟩, rfl, ?_, ?_⟩
  · intro hne
    show sqliteGetRefreshToken
      (kvInsertOrReplace (kvDelete kv oldTokenHash)
        ⟨newToken.token, .refreshTokenV newToken, some newToken.expiresAt⟩)
      oldTokenHash now = none
    unfold sqliteGetRefreshToken
    rw [kvSelectLive_of_all_ne]
    intro r hr
    rcases List.mem_append.mp hr with hmem | hmem
    · exact kvDelete_key_ne _ _ r (kvDelete_sublist _ _ r hmem)
    · have : r = (⟨newToken.token, .refreshTokenV newToken, some newToken.expiresAt⟩ : KvRow) := by
        simpa using hmem
      rw [this]
      exact hne
  · intro hlive
    show sqliteGetRefreshToken
      (kvInsertOrReplace (kvDelete kv oldTokenHash)
        ⟨newToken.token, .refreshTokenV newToken, some newToken.expiresAt⟩)
      newToken.token now = some newToken
    unfold sqliteGetRefreshToken kvSelectLive kvInsertOrReplace
    rw [find?_append_of_none]
    · simp [hlive]
    · apply List.find?_eq_none.mpr
      intro r hr
      have hne := kvDelete_key_ne _ _ r hr
      simp [hne]

theorem authCodeGrant_success (sha256hex sha256base64url : String → String)
    (st : OAuthServerState) (now : Nat) (newAccessToken newRefreshToken : String)
    (cd cid : String) (clientSecret redirectUri : Option String) (v : String)
    (client : StoredClient) (authCode : AuthorizationCode) (challenge : String)
    (hcd : cd ≠ "") (hcid : cid ≠ "")
    (hclient : st.store.getClient cid = some client)
    (hsec : clientSecretCheckFails sha256hex client clientSecret = false)
    (hcode : jsMapGet st.authorizationCodes cd = some authCode)
    (hexp : ¬ authCode.expiresAt < now)
    (hac : authCode.clientId = cid)
    (huri : jsTruthy redirectUri = true → authCode.redirectUri = redirectUri.getD "")
    (hch : authCode.codeChallenge = some challenge)
    (hchne : challenge ≠ "")
    (hv : v ≠ "")
    (hhash : sha256base64url v = challenge) :
    handleAuthorizationCodeGrant sha256hex sha256base64url st now newAccessToken
        newRefreshToken (some cid) clientSecret (some cd) redirectUri (some v) =
      (.success 200
         { access_token := newAccessToken, refresh_token := some newRefreshToken,
           token_type := "Bearer", expires_in := 3600, scope := authCode.scope },
       { authorizationCodes := jsMapDelete st.authorizationCodes cd,
         store := (st.store.saveAccessToken
             (mintedAccessEntry sha256hex newAccessToken cid authCode now)).saveRefreshToken
           (mintedRefreshEntry sha256hex newRefreshToken cid authCode now) }) := by
  unfold handleAuthorizationCodeGrant mintedAccessEntry mintedRefreshEntry
  rcases hru : jsTruthy redirectUri with _ | _ <;>
    simp [jsFalsy, hcd, hcid, hclient, hsec, hcode, hexp, hac, hch, hchne, hv, hhash,
          huri, hru]

theorem authCodeGrant_error_preserves (sha256hex sha256base64url : String → String)
    (st : OAuthServerState) (now : Nat) (newAccessToken newRefreshToken : String)
    (clientId clientSecret code redirectUri codeVerifier : Option String)
    (status : Nat) (body : OAuthErrorBody)
    (h : (handleAuthorizationCodeGrant sha256hex sha256base64url st now newAccessToken
        newRefreshToken clientId clientSecret code redirectUri codeVerifier).1 =
      .failure status body)
    (hne : body.error_description ≠ some "Authorization code expired") :
    (handleAuthorizationCodeGrant sha256hex sha256base64url st now newAccessToken
        newRefreshToken clientId clientSecret code redirectUri codeVerifier).2 = st := by
  unfold handleAuthorizationCodeGrant at h ⊢
  by_cases h₁ : (jsFalsy code || jsFalsy clientId) = true
  · rw [if_pos h₁]
  · rw [if_neg h₁] at h ⊢
    rcases hclient : st.store.getClient (clientId.getD "") with _ | client
    · simp only [hclient]
    · simp only [hclient] at h ⊢
      by_cases hsec : clientSecretCheckFails sha256hex client clientSecret = true
      · rw [if_pos hsec]
      · rw [if_neg hsec] at h ⊢
        rcases hcode : jsMapGet st.authorizationCodes (code.getD "") with _ | authCode
        · simp only [hcode]
        · simp only [hcode] at h ⊢
          by_cases hexp : authCode.expiresAt < now
          · exfalso
            rw [if_pos hexp] at h
            injection h with h₁ h₂
            rw [← h₂] at hne
            exact hne rfl
          · rw [if_neg hexp] at h ⊢
            by_cases hac : authCode.clientId ≠ clientId.getD ""
            · rw [if_pos hac]
            · rw [if_neg hac] at h ⊢
              by_cases hru : (jsTruthy redirectUri &&
                  decide (authCode.redirectUri ≠ redirectUri.getD "")) = true
              · rw [if_pos hru]
              · rw [if_neg hru] at h ⊢
                by_cases hch : jsFalsy authCode.codeChallenge = true
                · rw [if_pos hch]
                · rw [if_neg hch] at h ⊢
                  by_cases hcv : jsFalsy codeVerifier = true
                  · rw [if_pos hcv]
                  · rw [if_neg hcv] at h ⊢
                    by_cases hh : authCode.codeChallenge ≠
                        some (sha256base64url (codeVerifier.getD ""))
                    · rw [if_pos hh]
                    · rw [if_neg hh] at h
                      exact absurd h (by simp)

theorem authCodeGrant_unknown_code (sha256hex sha256base64url : String → String)
    (st : OAuthServerState) (now : Nat) (newAccessToken newRefreshToken : String)
    (cd cid : String) (clientSecret redirectUri codeVerifier : Option String)
    (client : StoredClient)
    (hcd : cd ≠ "") (hcid : cid ≠ "")
    (hclient : st.store.getClient cid = some client)
    (hsec : clientSecretCheckFails sha256hex client clientSecret = false)
    (hnone : jsMapGet st.authorizationCodes cd = none) :
    handleAuthorizationCodeGrant sha256hex sha256base64url st now newAccessToken
        newRefreshToken (some cid) clientSecret (some cd) redirectUri codeVerifier =
      (.failure 400 ⟨"invalid_grant", some "Invalid authorization code"⟩, st) := by
  unfold handleAuthorizationCodeGrant
  simp [jsFalsy, hcd, hcid, hclient, hsec, hnone]

theorem authCodeGrant_expired (sha256hex sha256base64url : String → String)
    (st : OAuthServerState) (now : Nat) (newAccessToken newRefreshToken : String)
    (cd cid : String) (clientSecret redirectUri codeVerifier : Option String)
    (client : StoredClient) (authCode : AuthorizationCode)
    (hcd : cd ≠ "") (hcid : cid ≠ "")
    (hclient : st.store.getClient cid = some client)
    (hsec : clientSecretCheckFails sha256hex client clientSecret = false)
    (hcode : jsMapGet st.authorizationCodes cd = some authCode)
    (hexp : authCode.expiresAt < now) :
    handleAuthorizationCodeGrant sha256hex sha256base64url st now newAccessToken
        newRefreshToken (some cid) clientSecret (some cd) redirectUri codeVerifier =
      (.failure 400 ⟨"invalid_grant", some "Authorization code expired"⟩,
       { st with authorizationCodes := jsMapDelete st.authorizationCodes cd }) := by
  unfold handleAuthorizationCodeGrant
  simp [jsFalsy, hcd, hcid, hclient, hsec, hcode, hexp]

/-- Claim C1: for an authorization-code exchange whose stored code carries a
code challenge and whose other checks pass (known client, secret gate passed,
code present and unexpired, client id and redirect URI match): a
`code_verifier` whose `BASE64URL(SHA-256(·))` equals the stored challenge
yields HTTP 200 with the access token, refresh token, `token_type "Bearer"`,
`expires_in 3600` and the code's scope; an absent verifier, or one whose hash
differs from the challenge, yields HTTP 400 `invalid_grant`. -/
theorem claim_C1 (sha256hex sha256base64url : String → String)
    (st : OAuthServerState) (now : Nat) (newAccessToken newRefreshToken : String)
    (cd cid : String) (clientSecret redirectUri : Option String)
    (client : StoredClient) (authCode : AuthorizationCode) (challenge : String)
    (hcd : cd ≠ "") (hcid : cid ≠ "")
    (hclient : st.store.getClient cid = some client)
    (hsec : clientSecretCheckFails sha256hex client clientSecret = false)
    (hcode : jsMapGet st.authorizationCodes cd = some authCode)
    (hexp : ¬ authCode.expiresAt < now)
    (hac : authCode.clientId = cid)
    (huri : jsTruthy redirectUri = true → authCode.redirectUri = redirectUri.getD "")
    (hch : authCode.codeChallenge = some challenge)
    (hchne : challenge ≠ "") :
    (∀ v, v ≠ "" → sha256base64url v = challenge →
      (handleAuthorizationCodeGrant sha256hex sha256base64url st now newAccessToken
          newRefreshToken (some cid) clientSecret (some cd) redirectUri (some v)).1 =
        .success 200
          { access_token := newAccessToken, refresh_token := some newRefreshToken,
            token_type := "Bearer", expires_in := 3600, scope := authCode.scope }) ∧
    (∀ v, v ≠ "" → sha256base64url v ≠ challenge →
      (handleAuthorizationCodeGrant sha256hex sha256base64url st now newAccessToken
          newRefreshToken (some cid) clientSecret (some cd) redirectUri (some v)).1 =
        .failure 400 ⟨"invalid_grant", some "Invalid code verifier"⟩) ∧
    (∀ codeVerifier, jsFalsy codeVerifier = true →
      (handleAuthorizationCodeGrant sha256hex sha256base64url st now newAccessToken
          newRefreshToken (some cid) clientSecret (some cd) redirectUri codeVerifier).1 =
        .failure 400 ⟨"invalid_grant", some "Code verifier required"⟩) := by
  refine ⟨?_, ?_, ?_⟩
  · intro v hv hhash
    rw [authCodeGrant_success sha256hex sha256base64url st now newAccessToken newRefreshToken
          cd cid clientSecret redirectUri v client authCode challenge
          hcd hcid hclient hsec hcode hexp hac huri hch hchne hv hhash]
  · intro v hv hne
    unfold handleAuthorizationCodeGrant
    rcases hru : jsTruthy redirectUri with _ | _ <;>
      simp [jsFalsy, hcd, hcid, hclient, hsec, hcode, hexp, hac, hch, hchne, hv,
            Ne.symm hne, huri, hru]
  · intro codeVerifier hcv
    unfold handleAuthorizationCodeGrant
    rcases codeVerifier with _ | s
    · rcases hru : jsTruthy redirectUri with _ | _ <;>
        simp [jsFalsy, hcd, hcid, hclient, hsec, hcode, hexp, hac, hch, hchne, huri, hru]
    · have hs : s = "" := by simpa [jsFalsy] using hcv
      subst hs
      rcases hru : jsTruthy redirectUri with _ | _ <;>
        simp [jsFalsy, hcd, hcid, hclient, hsec, hcode, hexp, hac, hch, hchne, huri, hru]

/-- Claim C4: authorization codes are single-use.  A successful exchange
deletes the code, so an identical second exchange gets 400 `invalid_grant`
(`Invalid authorization code`); and an exchange presenting a code whose
`expiresAt` has passed deletes the code and returns 400 `invalid_grant`
(`Authorization code expired`). -/
theorem claim_C4 (sha256hex sha256base64url : String → String)
    (st : OAuthServerState) (now : Nat) (newAccessToken newRefreshToken : String)
    (cd cid : String) (clientSecret redirectUri : Option String) (v : String)
    (client : StoredClient) (authCode : AuthorizationCode) (challenge : String)
    (hcd : cd ≠ "") (hcid : cid ≠ "")
    (hclient : st.store.getClient cid = some client)
    (hsec : clientSecretCheckFails sha256hex client clientSecret = false)
    (hcode : jsMapGet st.authorizationCodes cd = some authCode) :
    (∀ (hexp : ¬ authCode.expiresAt < now) (hac : authCode.clientId = cid)
       (huri : jsTruthy redirectUri = true → authCode.redirectUri = redirectUri.getD "")
       (hch : authCode.codeChallenge = some challenge) (hchne : challenge ≠ "")
       (hv : v ≠ "") (hhash : sha256base64url v = challenge),
      jsMapGet (handleAuthorizationCodeGrant sha256hex sha256base64url st now newAccessToken
          newRefreshToken (some cid) clientSecret (some cd) redirectUri
          (some v)).2.authorizationCodes cd = none ∧
      ∀ (now₂ : Nat) (newAccessToken₂ newRefreshToken₂ : String),
        (handleAuthorizationCodeGrant sha256hex sha256base64url
            (handleAuthorizationCodeGrant sha256hex sha256base64url st now newAccessToken
              newRefreshToken (some cid) clientSecret (some cd) redirectUri (some v)).2
            now₂ newAccessToken₂ newRefreshToken₂
            (some cid) clientSecret (some cd) redirectUri (some v)).1 =
          .failure 400 ⟨"invalid_grant", some "Invalid authorization code"⟩) ∧
    (authCode.expiresAt < now →
      (handleAuthorizationCodeGrant sha256hex sha256base64url st now newAccessToken
          newRefreshToken (some cid) clientSecret (some cd) redirectUri (some v)).1 =
        .failure 400 ⟨"invalid_grant", some "Authorization code expired"⟩ ∧
      jsMapGet (handleAuthorizationCodeGrant sha256hex sha256base64url st now newAccessToken
          newRefreshToken (some cid) clientSecret (some cd) redirectUri
          (some v)).2.authorizationCodes cd = none) := by
  constructor
  · intro hexp hac huri hch hchne hv hhash
    rw [authCodeGrant_success sha256hex sha256base64url st now newAccessToken newRefreshToken
          cd cid clientSecret redirectUri v client authCode challenge
          hcd hcid hclient hsec hcode hexp hac huri hch hchne hv hhash]
    refine ⟨jsMapGet_delete_self _ _, ?_⟩
    intro now₂ newAccessToken₂ newRefreshToken₂
    have hres := authCodeGrant_unknown_code sha256hex sha256base64url
      ⟨jsMapDelete st.authorizationCodes cd,
       (st.store.saveAccessToken
           (mintedAccessEntry sha256hex newAccessToken cid authCode now)).saveRefreshToken
         (mintedRefreshEntry sha256hex newRefreshToken cid authCode now)⟩
      now₂ newAccessToken₂ newRefreshToken₂ cd cid clientSecret redirectUri (some v) client
      hcd hcid
      (by simpa [MemoryStore.getClient, MemoryStore.saveAccessToken,
                 MemoryStore.saveRefreshToken] using hclient)
      hsec (jsMapGet_delete_self _ _)
    exact congrArg Prod.fst hres
  · intro hexp
    rw [authCodeGrant_expired sha256hex sha256base64url st now newAccessToken newRefreshToken
          cd cid clientSecret redirectUri (some v) client authCode
          hcd hcid hclient hsec hcode hexp]
    exact ⟨rfl, jsMapGet_delete_self _ _⟩

/-- Claim C10 (implicit): when an authorization-code exchange is rejected for
any reason other than code expiry, the server state — in particular the
stored authorization code — is left unchanged, and a subsequent exchange of
the same code with correct parameters succeeds; the code is deleted only on a
fully successful exchange or on expiry. -/
theorem claim_C10 (sha256hex sha256base64url : String → String)
    (st : OAuthServerState) (now : Nat) (newAccessToken newRefreshToken : String)
    (clientId₁ clientSecret₁ code₁ redirectUri₁ codeVerifier₁ : Option String)
    (status : Nat) (body : OAuthErrorBody)
    (cd cid : String) (clientSecret redirectUri : Option String) (v : String)
    (client : StoredClient) (authCode : AuthorizationCode) (challenge : String)
    (h : (handleAuthorizationCodeGrant sha256hex sha256base64url st now newAccessToken
        newRefreshToken clientId₁ clientSecret₁ code₁ redirectUri₁ codeVerifier₁).1 =
      .failure status body)
    (hne : body.error_description ≠ some "Authorization code expired")
    (hcd : cd ≠ "") (hcid : cid ≠ "")
    (hclient : st.store.getClient cid = some client)
    (hsec : clientSecretCheckFails sha256hex client clientSecret = false)
    (hcode : jsMapGet st.authorizationCodes cd = some authCode)
    (hexp : ¬ authCode.expiresAt < now)
    (hac : authCode.clientId = cid)
    (huri : jsTruthy redirectUri = true → authCode.redirectUri = redirectUri.getD "")
    (hch : authCode.codeChallenge = some challenge)
    (hchne : challenge ≠ "")
    (hv : v ≠ "") (hhash : sha256base64url v = challenge) :
    (handleAuthorizationCodeGrant sha256hex sha256base64url st now newAccessToken
        newRefreshToken clientId₁ clientSecret₁ code₁ redirectUri₁ codeVerifier₁).2 = st ∧
    (handleAuthorizationCodeGrant sha256hex sha256base64url
        (handleAuthorizationCodeGrant sha256hex sha256base64url st now newAccessToken
          newRefreshToken clientId₁ clientSecret₁ code₁ redirectUri₁ codeVerifier₁).2
        now newAccessToken newRefreshToken
        (some cid) clientSecret (some cd) redirectUri (some v)).1 =
      .success 200
        { access_token := newAccessToken, refresh_token := some newRefreshToken,
          token_type := "Bearer", expires_in := 3600, scope := authCode.scope } := by
  have hpres := authCodeGrant_error_preserves sha256hex sha256base64url st now newAccessToken
    newRefreshToken clientId₁ clientSecret₁ code₁ redirectUri₁ codeVerifier₁ status body h hne
  refine ⟨hpres, ?_⟩
  rw [hpres]
  rw [authCodeGrant_success sha256hex sha256base64url st now newAccessToken newRefreshToken
        cd cid clientSecret redirectUri v client authCode challenge
        hcd hcid hclient hsec hcode hexp hac huri hch hchne hv hhash]

theorem refreshGrant_success (sha256hex : String → String)
    (st : OAuthServerState) (now : Nat) (newAccessToken newRefreshToken : String)
    (cid R : String) (clientSecret : Option String) (stored : StoredToken)
    (hR : R ≠ "") (hcid : cid ≠ "")
    (hstored : jsMapGet st.store.refreshTokens (sha256hex R) = some stored)
    (hlive : ¬ stored.expiresAt < now)
    (hscid : stored.clientId = cid)
    (hsec : (match st.store.getClient cid with
             | none => false
             | some client => clientSecretCheckFails sha256hex client clientSecret) = false) :
    handleRefreshTokenGrant sha256hex st now newAccessToken newRefreshToken
        (some cid) clientSecret (some R) =
      (.success 200
         { access_token := newAccessToken, refresh_token := some newRefreshToken,
           token_type := "Bearer", expires_in := 3600, scope := stored.scope },
       { st with store :=
           ((st.store.rotateRefreshToken (sha256hex R)
             { token := sha256hex newRefreshToken, clientId := cid, scope := stored.scope,
               expiresAt := now + 90 * 24 * 60 * 60 * 1000,
               userId := stored.userId }).saveAccessToken
             { token := sha256hex newAccessToken, clientId := cid, scope := stored.scope,
               expiresAt := now + 3600 * 1000, userId := stored.userId }) }) := by
  unfold handleRefreshTokenGrant MemoryStore.getRefreshToken
  simp [jsFalsy, hR, hcid, hashSecret, hstored, hlive, hscid, hsec]

theorem refreshGrant_invalid_token (sha256hex : String → String)
    (st : OAuthServerState) (now : Nat) (newAccessToken newRefreshToken : String)
    (cid R : String) (clientSecret : Option String)
    (hR : R ≠ "") (hcid : cid ≠ "")
    (hnone : jsMapGet st.store.refreshTokens (sha256hex R) = none) :
    handleRefreshTokenGrant sha256hex st now newAccessToken newRefreshToken
        (some cid) clientSecret (some R) =
      (.failure 400 ⟨"invalid_grant", some "Invalid refresh token"⟩, st) := by
  unfold handleRefreshTokenGrant MemoryStore.getRefreshToken
  simp [jsFalsy, hR, hcid, hashSecret, hnone]

/-- Claim C2: a successful refresh-token exchange of token `R` removes the
store entry under `hash(R)`, installs an entry under the hash of the newly
issued refresh token carrying forward the old entry's `scope` and `userId`
(rotation is one atomic store step), and a subsequent refresh request
presenting `R` again gets HTTP 400 `invalid_grant`. -/
theorem claim_C2 (sha256hex : String → String)
    (st : OAuthServerState) (now : Nat) (newAccessToken newRefreshToken : String)
    (cid R : String) (clientSecret : Option String) (stored : StoredToken)
    (hR : R ≠ "") (hcid : cid ≠ "")
    (hstored : jsMapGet st.store.refreshTokens (sha256hex R) = some stored)
    (hlive : ¬ stored.expiresAt < now)
    (hscid : stored.clientId = cid)
    (hsec : (match st.store.getClient cid with
             | none => false
             | some client => clientSecretCheckFails sha256hex client clientSecret) = false)
    (hneq : sha256hex newRefreshToken ≠ sha256hex R) :
    (handleRefreshTokenGrant sha256hex st now newAccessToken newRefreshToken
        (some cid) clientSecret (some R)).1 =
      .success 200
        { access_token := newAccessToken, refresh_token := some newRefreshToken,
          token_type := "Bearer", expires_in := 3600, scope := stored.scope } ∧
    jsMapGet (handleRefreshTokenGrant sha256hex st now newAccessToken newRefreshToken
        (some cid) clientSecret (some R)).2.store.refreshTokens (sha256hex R) = none ∧
    jsMapGet (handleRefreshTokenGrant sha256hex st now newAccessToken newRefreshToken
        (some cid) clientSecret (some R)).2.store.refreshTokens (sha256hex newRefreshToken) =
      some { token := sha256hex newRefreshToken, clientId := cid, scope := stored.scope,
             expiresAt := now + 90 * 24 * 60 * 60 * 1000, userId := stored.userId } ∧
    (∀ (now₂ : Nat) (newAccessToken₂ newRefreshToken₂ : String) (clientSecret₂ : Option String),
      (handleRefreshTokenGrant sha256hex
          (handleRefreshTokenGrant sha256hex st now newAccessToken newRefreshToken
            (some cid) clientSecret (some R)).2
          now₂ newAccessToken₂ newRefreshToken₂ (some cid) clientSecret₂ (some R)).1 =
        .failure 400 ⟨"invalid_grant", some "Invalid refresh token"⟩) := by
  rw [refreshGrant_success sha256hex st now newAccessToken newRefreshToken cid R clientSecret
        stored hR hcid hstored hlive hscid hsec]
  have hafter :
      jsMapGet ((st.store.rotateRefreshToken (sha256hex R)
          { token := sha256hex newRefreshToken, clientId := cid, scope := stored.scope,
            expiresAt := now + 90 * 24 * 60 * 60 * 1000,
            userId := stored.userId }).saveAccessToken
          { token := sha256hex newAccessToken, clientId := cid, scope := stored.scope,
            expiresAt := now + 3600 * 1000, userId := stored.userId }).refreshTokens
        (sha256hex R) = none := by
    show jsMapGet (jsMapSet (jsMapDelete st.store.refreshTokens (sha256hex R))
      (sha256hex newRefreshToken) _) (sha256hex R) = none
    rw [jsMapGet_set_ne _ _ _ _ (Ne.symm hneq), jsMapGet_delete_self]
  refine ⟨rfl, hafter, ?_, ?_⟩
  · exact jsMapGet_set_self _ _ _
  · intro now₂ newAccessToken₂ newRefreshToken₂ clientSecret₂
    have hres := refreshGrant_invalid_token sha256hex
      ⟨st.authorizationCodes,
       (st.store.rotateRefreshToken (sha256hex R)
         { token := sha256hex newRefreshToken, clientId := cid, scope := stored.scope,
           expiresAt := now + 90 * 24 * 60 * 60 * 1000,
           userId := stored.userId }).saveAccessToken
         { token := sha256hex newAccessToken, clientId := cid, scope := stored.scope,
           expiresAt := now + 3600 * 1000, userId := stored.userId }⟩
      now₂ newAccessToken₂ newRefreshToken₂ cid R clientSecret₂ hR hcid hafter
    exact congrArg Prod.fst hres

/-- Claim C5: with at least one identity provider configured, `/authorize`
(GET and POST share this validation prefix) rejects in exactly this order:
missing `client_id`/`redirect_uri`/`code_challenge`, `response_type ≠ code`
or `code_challenge_method ≠ S256` give 400 `invalid_request`; then an unknown
`client_id` gives 400 `invalid_client`; then a `redirect_uri` that is not
byte-for-byte among the client's registered URIs gives 400 `invalid_request`
with description `Invalid redirect_uri`. -/
theorem claim_C5 (providerCount : Nat) (store : MemoryStore)
    (clientId redirectUri responseType codeChallenge codeChallengeMethod : Option String)
    (hp : providerCount ≠ 0) :
    ((jsFalsy clientId = true ∨ jsFalsy redirectUri = true ∨
        responseType ≠ some "code" ∨ jsFalsy codeChallenge = true) →
      handleAuthorizeValidation providerCount store clientId redirectUri responseType
          codeChallenge codeChallengeMethod =
        .failure 400 ⟨"invalid_request", some "Missing required parameters"⟩) ∧
    (jsFalsy clientId = false → jsFalsy redirectUri = false → responseType = some "code" →
      jsFalsy codeChallenge = false →
      ((codeChallengeMethod ≠ some "S256" →
        handleAuthorizeValidation providerCount store clientId redirectUri responseType
            codeChallenge codeChallengeMethod =
          .failure 400 ⟨"invalid_request", some "Only S256 code challenge method is supported"⟩) ∧
      (codeChallengeMethod = some "S256" →
        (store.getClient (clientId.getD "") = none →
          handleAuthorizeValidation providerCount store clientId redirectUri responseType
              codeChallenge codeChallengeMethod =
            .failure 400 ⟨"invalid_client", some "Unknown client_id"⟩) ∧
        (∀ client, store.getClient (clientId.getD "") = some client →
          isRedirectUriAllowed (redirectUri.getD "") client = false →
          handleAuthorizeValidation providerCount store clientId redirectUri responseType
              codeChallenge codeChallengeMethod =
            .failure 400 ⟨"invalid_request", some "Invalid redirect_uri"⟩)))) := by
  constructor
  · intro hbad
    unfold handleAuthorizeValidation
    rcases hbad with h | h | h | h <;> simp [hp, h]
  · intro h₁ h₂ h₃ h₄
    constructor
    · intro hm
      unfold handleAuthorizeValidation
      simp [hp, h₁, h₂, h₃, h₄, hm]
    · intro hm
      constructor
      · intro hclient
        unfold handleAuthorizeValidation
        simp [hp, h₁, h₂, h₃, h₄, hm, hclient]
      · intro client hclient huri
        unfold handleAuthorizeValidation
        simp [hp, h₁, h₂, h₃, h₄, hm, hclient, huri]

/-- Witness for C5: concrete request with every parameter present and valid
except the redirect URI, against a store holding the client. -/
theorem claim_C5_witness :
    handleAuthorizeValidation 1
        ⟨[("web-client",
           ⟨"web-client", none, none, some ["http://localhost:3000/cb"], ["authorization_code"],
            ["code"], "none", 0, false⟩)], [], []⟩
        (some "web-client") (some "http://localhost:3000/cb/") (some "code")
        (some "challenge-value") (some "S256") =
      .failure 400 ⟨"invalid_request", some "Invalid redirect_uri"⟩ := by
  have h := (claim_C5 1
    ⟨[("web-client",
       ⟨"web-client", none, none, some ["http://localhost:3000/cb"], ["authorization_code"],
        ["code"], "none", 0, false⟩)], [], []⟩
    (some "web-client") (some "http://localhost:3000/cb/") (some "code")
    (some "challenge-value") (some "S256") (by decide)).2
  exact ((h (by decide) (by decide) rfl (by decide)).2 rfl).2
    ⟨"web-client", none, none, some ["http://localhost:3000/cb"], ["authorization_code"],
     ["code"], "none", 0, false⟩ (by decide) (by decide)

theorem clientCredGrant_success (sha256hex : String → String)
    (st : OAuthServerState) (now : Nat) (newAccessToken : String)
    (cid cs : String) (client : StoredClient)
    (hcid : cid ≠ "") (hcs : cs ≠ "")
    (hclient : st.store.getClient cid = some client)
    (hgrant : client.grantTypes.contains "client_credentials" = true)
    (hsfalsy : jsFalsy client.clientSecret = false)
    (hverify : verifyClientSecret sha256hex cs (client.clientSecret.getD "") = true) :
    handleClientCredentialsGrant sha256hex st now newAccessToken (some cid) (some cs) =
      (.success 200
         { access_token := newAccessToken, refresh_token := none,
           token_type := "Bearer", expires_in := 3600, scope := some "mcp:tools" },
       { st with store :=
           (st.store.saveAccessToken
             { token := sha256hex newAccessToken, clientId := cid,
               scope := some "mcp:tools", expiresAt := now + 3600 * 1000,
               userId := "client:" ++ cid }) }) := by
  unfold handleClientCredentialsGrant
  have hmem : "client_credentials" ∈ client.grantTypes := by simpa using hgrant
  rcases hcsec : client.clientSecret with _ | s
  · rw [hcsec] at hsfalsy
    simp [jsFalsy] at hsfalsy
  · rw [hcsec] at hverify
    rw [hcsec] at hsfalsy
    simp only [Option.getD_some] at hverify
    have hs : s ≠ "" := by simpa [jsFalsy] using hsfalsy
    simp [jsFalsy, hcid, hcs, hclient, hmem, hcsec, hs, hverify, hashSecret]

/-- Claim C6: for every token issued by any of the three grants, the
plaintext appears only in that grant's HTTP response body; the store entry
is keyed by the SHA-256 hex digest of the token and its `token` field holds
that digest, and — provided hashing moves the plaintext (`sha256hex t ≠ t`)
and the plaintext was not a pre-existing key — looking the plaintext itself
up in the store yields absence. -/
theorem claim_C6 (sha256hex sha256base64url : String → String)
    (st : OAuthServerState) (now : Nat) :
    (∀ (newAccessToken newRefreshToken : String) (cd cid : String)
       (clientSecret redirectUri : Option String) (v : String)
       (client : StoredClient) (authCode : AuthorizationCode) (challenge : String),
      cd ≠ "" → cid ≠ "" →
      st.store.getClient cid = some client →
      clientSecretCheckFails sha256hex client clientSecret = false →
      jsMapGet st.authorizationCodes cd = some authCode →
      ¬ authCode.expiresAt < now →
      authCode.clientId = cid →
      (jsTruthy redirectUri = true → authCode.redirectUri = redirectUri.getD "") →
      authCode.codeChallenge = some challenge → challenge ≠ "" →
      v ≠ "" → sha256base64url v = challenge →
      (handleAuthorizationCodeGrant sha256hex sha256base64url st now newAccessToken
          newRefreshToken (some cid) clientSecret (some cd) redirectUri (some v)).1 =
        .success 200
          { access_token := newAccessToken, refresh_token := some newRefreshToken,
            token_type := "Bearer", expires_in := 3600, scope := authCode.scope } ∧
      jsMapGet (handleAuthorizationCodeGrant sha256hex sha256base64url st now newAccessToken
          newRefreshToken (some cid) clientSecret (some cd) redirectUri
          (some v)).2.store.accessTokens (sha256hex newAccessToken) =
        some (mintedAccessEntry sha256hex newAccessToken cid authCode now) ∧
      jsMapGet (handleAuthorizationCodeGrant sha256hex sha256base64url st now newAccessToken
          newRefreshToken (some cid) clientSecret (some cd) redirectUri
          (some v)).2.store.refreshTokens (sha256hex newRefreshToken) =
        some (mintedRefreshEntry sha256hex newRefreshToken cid authCode now) ∧
      (sha256hex newAccessToken ≠ newAccessToken →
        jsMapGet st.store.accessTokens newAccessToken = none →
        jsMapGet (handleAuthorizationCodeGrant sha256hex sha256base64url st now newAccessToken
            newRefreshToken (some cid) clientSecret (some cd) redirectUri
            (some v)).2.store.accessTokens newAccessToken = none) ∧
      (sha256hex newRefreshToken ≠ newRefreshToken →
        jsMapGet st.store.refreshTokens newRefreshToken = none →
        jsMapGet (handleAuthorizationCodeGrant sha256hex sha256base64url st now newAccessToken
            newRefreshToken (some cid) clientSecret (some cd) redirectUri
            (some v)).2.store.refreshTokens newRefreshToken = none)) ∧
    (∀ (newAccessToken : String) (cid cs : String) (client : StoredClient),
      cid ≠ "" → cs ≠ "" →
      st.store.getClient cid = some client →
      client.grantTypes.contains "client_credentials" = true →
      jsFalsy client.clientSecret = false →
      verifyClientSecret sha256hex cs (client.clientSecret.getD "") = true →
      (handleClientCredentialsGrant sha256hex st now newAccessToken
          (some cid) (some cs)).1 =
        .success 200
          { access_token := newAccessToken, refresh_token := none,
            token_type := "Bearer", expires_in := 3600, scope := some "mcp:tools" } ∧
      jsMapGet (handleClientCredentialsGrant sha256hex st now newAccessToken
          (some cid) (some cs)).2.store.accessTokens (sha256hex newAccessToken) =
        some { token := sha256hex newAccessToken, clientId := cid,
               scope := some "mcp:tools", expiresAt := now + 3600 * 1000,
               userId := "client:" ++ cid } ∧
      (sha256hex newAccessToken ≠ newAccessToken →
        jsMapGet st.store.accessTokens newAccessToken = none →
        jsMapGet (handleClientCredentialsGrant sha256hex st now newAccessToken
            (some cid) (some cs)).2.store.accessTokens newAccessToken = none)) ∧
    (∀ (newAccessToken newRefreshToken : String) (cid R : String)
       (clientSecret : Option String) (stored : StoredToken),
      R ≠ "" → cid ≠ "" →
      jsMapGet st.store.refreshTokens (sha256hex R) = some stored →
      ¬ stored.expiresAt < now →
      stored.clientId = cid →
      (match st.store.getClient cid with
       | none => false
       | some client => clientSecretCheckFails sha256hex client clientSecret) = false →
      (handleRefreshTokenGrant sha256hex st now newAccessToken newRefreshToken
          (some cid) clientSecret (some R)).1 =
        .success 200
          { access_token := newAccessToken, refresh_token := some newRefreshToken,
            token_type := "Bearer", expires_in := 3600, scope := stored.scope } ∧
      jsMapGet (handleRefreshTokenGrant sha256hex st now newAccessToken newRefreshToken
          (some cid) clientSecret (some R)).2.store.accessTokens (sha256hex newAccessToken) =
        some { token := sha256hex newAccessToken, clientId := cid, scope := stored.scope,
               expiresAt := now + 3600 * 1000, userId := stored.userId } ∧
      jsMapGet (handleRefreshTokenGrant sha256hex st now newAccessToken newRefreshToken
          (some cid) clientSecret (some R)).2.store.refreshTokens (sha256hex newRefreshToken) =
        some { token := sha256hex newRefreshToken, clientId := cid, scope := stored.scope,
               expiresAt := now + 90 * 24 * 60 * 60 * 1000, userId := stored.userId } ∧
      (sha256hex newAccessToken ≠ newAccessToken →
        jsMapGet st.store.accessTokens newAccessToken = none →
        jsMapGet (handleRefreshTokenGrant sha256hex st now newAccessToken newRefreshToken
            (some cid) clientSecret (some R)).2.store.accessTokens newAccessToken = none) ∧
      (sha256hex newRefreshToken ≠ newRefreshToken →
        sha256hex R ≠ newRefreshToken →
        jsMapGet st.store.refreshTokens newRefreshToken = none →
        jsMapGet (handleRefreshTokenGrant sha256hex st now newAccessToken newRefreshToken
            (some cid) clientSecret (some R)).2.store.refreshTokens newRefreshToken = none)) := by
  refine ⟨?_, ?_, ?_⟩
  · intro na nr cd cid clientSecret redirectUri v client authCode challenge
      hcd hcid hclient hsec hcode hexp hac huri hch hchne hv hhash
    rw [authCodeGrant_success sha256hex sha256base64url st now na nr cd cid clientSecret
          redirectUri v client authCode challenge hcd hcid hclient hsec hcode hexp hac
          huri hch hchne hv hhash]
    refine ⟨rfl, ?_, ?_, ?_, ?_⟩
    · show jsMapGet (jsMapSet st.store.accessTokens (sha256hex na) _) (sha256hex na) = _
      exact jsMapGet_set_self _ _ _
    · show jsMapGet (jsMapSet st.store.refreshTokens (sha256hex nr) _) (sha256hex nr) = _
      exact jsMapGet_set_self _ _ _
    · intro hmoves hfresh
      show jsMapGet (jsMapSet st.store.accessTokens (sha256hex na) _) na = none
      rw [jsMapGet_set_ne _ _ _ _ (Ne.symm hmoves)]
      exact hfresh
    · intro hmoves hfresh
      show jsMapGet (jsMapSet st.store.refreshTokens (sha256hex nr) _) nr = none
      rw [jsMapGet_set_ne _ _ _ _ (Ne.symm hmoves)]
      exact hfresh
  · intro na cid cs client hcid hcs hclient hgrant hsfalsy hverify
    rw [clientCredGrant_success sha256hex st now na cid cs client hcid hcs hclient hgrant
          hsfalsy hverify]
    refine ⟨rfl, ?_, ?_⟩
    · show jsMapGet (jsMapSet st.store.accessTokens (sha256hex na) _) (sha256hex na) = _
      exact jsMapGet_set_self _ _ _
    · intro hmoves hfresh
      show jsMapGet (jsMapSet st.store.accessTokens (sha256hex na) _) na = none
      rw [jsMapGet_set_ne _ _ _ _ (Ne.symm hmoves)]
      exact hfresh
  · intro na nr cid R clientSecret stored hR hcid hstored hlive hscid hsec
    rw [refreshGrant_success sha256hex st now na nr cid R clientSecret stored hR hcid
          hstored hlive hscid hsec]
    refine ⟨rfl, ?_, ?_, ?_, ?_⟩
    · show jsMapGet (jsMapSet st.store.accessTokens (sha256hex na) _) (sha256hex na) = _
      exact jsMapGet_set_self _ _ _
    · show jsMapGet (jsMapSet (jsMapDelete st.store.refreshTokens (sha256hex R))
        (sha256hex nr) _) (sha256hex nr) = _
      exact jsMapGet_set_self _ _ _
    · intro hmoves hfresh
      show jsMapGet (jsMapSet st.store.accessTokens (sha256hex na) _) na = none
      rw [jsMapGet_set_ne _ _ _ _ (Ne.symm hmoves)]
      exact hfresh
    · intro hmoves hold hfresh
      show jsMapGet (jsMapSet (jsMapDelete st.store.refreshTokens (sha256hex R))
        (sha256hex nr) _) nr = none
      rw [jsMapGet_set_ne _ _ _ _ (Ne.symm hmoves),
          jsMapGet_delete_ne _ _ _ (Ne.symm hold)]
      exact hfresh

/-- Claim C7: token validation extracts the bearer with
`/^Bearer\s+(.+)$/i` and rejects an absent or non-matching header; otherwise
it hashes the extracted token, looks the hash up in the access-token store,
rejects when the entry is absent or its expiry has passed, and otherwise
succeeds reporting the `userId` stored with the token. -/
theorem claim_C7 (sha256hex : String → String) (store : MemoryStore) (now : Nat)
    (authHeader : Option String) :
    (authHeader = none → parseBearerToken authHeader = none) ∧
    (parseBearerToken authHeader = none →
      (validateToken sha256hex store now authHeader).1.valid = false) ∧
    (∀ token, parseBearerToken authHeader = some token →
      (jsMapGet store.accessTokens (sha256hex token) = none →
        (validateToken sha256hex store now authHeader).1 =
          { valid := false, userId := none, error := some "Invalid token" }) ∧
      (∀ entry, jsMapGet store.accessTokens (sha256hex token) = some entry →
        (entry.expiresAt < now →
          (validateToken sha256hex store now authHeader).1 =
            { valid := false, userId := none, error := some "Invalid token" }) ∧
        (¬ entry.expiresAt < now →
          (validateToken sha256hex store now authHeader).1 =
            { valid := true, userId := some entry.userId, error := none }))) := by
  refine ⟨?_, ?_, ?_⟩
  · intro h
    rw [h]
    rfl
  · intro h
    unfold validateToken
    rw [h]
  · intro token htok
    constructor
    · intro hnone
      unfold validateToken MemoryStore.getAccessToken
      rw [htok]
      simp [hashSecret, hnone]
    · intro entry hentry
      constructor
      · intro hexp
        unfold validateToken MemoryStore.getAccessToken
        rw [htok]
        simp [hashSecret, hentry, hexp]
      · intro hexp
        unfold validateToken MemoryStore.getAccessToken
        rw [htok]
        simp [hashSecret, hentry, hexp]

/-- Witness for C7: header `Bearer tok-1` against a store holding the hash
of `tok-1` (hash function `"H" ++ ·`) yields a valid result with the stored
user id. -/
theorem claim_C7_witness :
    parseBearerToken (some "Bearer tok-1") = some "tok-1" ∧
      (validateToken (fun s => "H" ++ s)
          ⟨[], [("Htok-1", ⟨"Htok-1", "web-client", none, 99, "local:alice"⟩)], []⟩
          42 (some "Bearer tok-1")).1 =
        { valid := true, userId := some "local:alice", error := none } := by
  constructor
  · decide
  · exact (((claim_C7 (fun s => "H" ++ s)
      ⟨[], [("Htok-1", ⟨"Htok-1", "web-client", none, 99, "local:alice"⟩)], []⟩
      42 (some "Bearer tok-1")).2.2 "tok-1" (by decide)).2
      ⟨"Htok-1", "web-client", none, 99, "local:alice"⟩ (by decide)).2 (by decide)

/-- Witness for C1: concrete PKCE exchange against `demoState` with the
matching verifier `"verifier"` returns 200 with both tokens and the code's
scope. -/
theorem claim_C1_witness :
    (handleAuthorizationCodeGrant demoSha256Hex demoSha256B64 demoState 500
        "AT-1" "RT-1" (some "web-client") none (some "code-1") none (some "verifier")).1 =
      .success 200
        { access_token := "AT-1", refresh_token := some "RT-1",
          token_type := "Bearer", expires_in := 3600, scope := some "mcp:tools" } :=
  (claim_C1 demoSha256Hex demoSha256B64 demoState 500 "AT-1" "RT-1" "code-1" "web-client"
      none none demoClient demoAuthCode "Cverifier"
      (by decide) (by decide) (by decide) (by decide) (by decide) (by decide) (by decide)
      (by decide) (by decide) (by decide)).1 "verifier" (by decide) (by decide)

/-- Witness for C2: concrete refresh exchange against `demoRefreshState`;
after it, the old token's hash `Hrefresh-1` is gone from the store. -/
theorem claim_C2_witness :
    jsMapGet (handleRefreshTokenGrant demoSha256Hex demoRefreshState 500 "AT-2" "RT-2"
        (some "web-client") none (some "refresh-1")).2.store.refreshTokens "Hrefresh-1" =
      none :=
  (claim_C2 demoSha256Hex demoRefreshState 500 "AT-2" "RT-2" "web-client" "refresh-1" none
      { token := "Hrefresh-1", clientId := "web-client", scope := some "mcp:tools",
        expiresAt := 9999, userId := "local:alice" }
      (by decide) (by decide) (by decide) (by decide) (by decide) (by decide)
      (by decide)).2.1

/-- Witness for C4: after the successful exchange of `code-1`, a second
exchange of the same code is rejected with `invalid_grant`. -/
theorem claim_C4_witness :
    (handleAuthorizationCodeGrant demoSha256Hex demoSha256B64
        (handleAuthorizationCodeGrant demoSha256Hex demoSha256B64 demoState 500
          "AT-1" "RT-1" (some "web-client") none (some "code-1") none (some "verifier")).2
        600 "AT-2" "RT-2" (some "web-client") none (some "code-1") none (some "verifier")).1 =
      .failure 400 ⟨"invalid_grant", some "Invalid authorization code"⟩ :=
  ((claim_C4 demoSha256Hex demoSha256B64 demoState 500 "AT-1" "RT-1" "code-1" "web-client"
      none none "verifier" demoClient demoAuthCode "Cverifier"
      (by decide) (by decide) (by decide) (by decide) (by decide)).1
    (by decide) (by decide) (by decide) (by decide) (by decide) (by decide) (by decide)).2
    600 "AT-2" "RT-2"

/-- Witness for C6 at the client-credentials grant: the store entry created
by a concrete successful grant is keyed by the hash of the plaintext token
and holds that hash in its `token` field. -/
theorem claim_C6_witness :
    jsMapGet (handleClientCredentialsGrant demoSha256Hex demoCCState 500 "AT-1"
        (some "m2m-client") (some "m2m-secret")).2.store.accessTokens "HAT-1" =
      some { token := "HAT-1", clientId := "m2m-client", scope := some "mcp:tools",
             expiresAt := 500 + 3600 * 1000, userId := "client:m2m-client" } :=
  ((claim_C6 demoSha256Hex demoSha256B64 demoCCState 500).2.1 "AT-1" "m2m-client"
      "m2m-secret" demoCCClient (by decide) (by decide) (by decide) (by decide)
      (by decide) (by decide)).2.1

/-- Witness for C10: a first exchange of `code-1` with the wrong verifier
fails with `invalid_grant` but leaves the state unchanged, and the retry with
the correct verifier succeeds. -/
theorem claim_C10_witness :
    (handleAuthorizationCodeGrant demoSha256Hex demoSha256B64
        (handleAuthorizationCodeGrant demoSha256Hex demoSha256B64 demoState 500
          "AT-1" "RT-1" (some "web-client") none (some "code-1") none (some "wrong")).2
        500 "AT-1" "RT-1" (some "web-client") none (some "code-1") none (some "verifier")).1 =
      .success 200
        { access_token := "AT-1", refresh_token := some "RT-1",
          token_type := "Bearer", expires_in := 3600, scope := some "mcp:tools" } :=
  (claim_C10 demoSha256Hex demoSha256B64 demoState 500 "AT-1" "RT-1"
      (some "web-client") none (some "code-1") none (some "wrong")
      400 ⟨"invalid_grant", some "Invalid code verifier"⟩
      "code-1" "web-client" none none "verifier" demoClient demoAuthCode "Cverifier"
      (by decide) (by decide) (by decide) (by decide) (by decide) (by decide) (by decide)
      (by decide) (by decide) (by decide) (by decide) (by decide) (by decide) (by decide)).2

/-- Witness for C3's amended theorem at a concrete table and token. -/
theorem claim_C3_amended_witness :
    ("newHash" : String) ≠ "oldHash" ∧ (5 : Nat) < 2000 ∧
      sqliteGetRefreshToken
        (sqliteRotateRefreshToken
          [⟨"oldHash", .refreshTokenV ⟨"oldHash", "client-1", none, 1000, "user-1"⟩, some 1000⟩]
          "oldHash"
          ⟨"newHash", "client-1", none, 2000, "user-1"⟩
          false).kv
        "oldHash" 5 = none :=
  ⟨by decide, by decide,
    ((claim_C3_amended
      [⟨"oldHash", .refreshTokenV ⟨"oldHash", "client-1", none, 1000, "user-1"⟩, some 1000⟩]
      "oldHash" ⟨"newHash", "client-1", none, 2000, "user-1"⟩ 5).2.2.1 (by decide))⟩

end MCPBox
